import Mathlib

/-!
Shallow embedding of `rate_limiter.py` (elliotoxin/API-Rate-Limiter).

Modelling conventions:
* Python `float` time values are modelled as `ℚ` (exact arithmetic stands in
  for the float computations; all claim inputs are small exact values).
* Python `int(x)` on a float truncates toward zero: `pyInt`.
* The wall clock `time.time()` is injected: every operation takes a `now`
  argument used at each `time.time()` call site of the source (the source
  reads the clock more than once inside some methods; those reads happen
  within the same call and are modelled as the same instant).
* Exceptions are modelled with `Except PyErr`: Python `1/0.0` and
  `int_a / 0` raise `ZeroDivisionError`; `deque[0]` on an empty deque raises
  `IndexError`; the factory raises `ValueError` for an unregistered
  algorithm.  The source defines no other error paths (in particular no
  `ConfigError` or `ClientIdError` class exists anywhere in the source).
* Per-limiter client state maps (`defaultdict`) are modelled as
  `String → Option state`; a missing key yields the default record, whose
  defaulting lambda is evaluated at access time (hence receives `now`).
-/

inductive PyErr where
  | zeroDivisionError
  | indexError
  | valueError
deriving DecidableEq, Repr

deriving instance DecidableEq for Except

/-- Python `int()` applied to a real value: truncation toward zero. -/
def pyInt (x : ℚ) : ℤ :=
  if 0 ≤ x then ⌊x⌋ else ⌈x⌉

/-- Python true division, raising `ZeroDivisionError` on a zero divisor. -/
def pydiv (a b : ℚ) : Except PyErr ℚ :=
  if b = 0 then .error .zeroDivisionError else .ok (a / b)

/-- Enum `RateLimitAlgorithm` (rate_limiter.py lines 28-34). -/
inductive RateLimitAlgorithm where
  | token_bucket
  | sliding_window
  | leaky_bucket
  | fixed_window
  | sliding_window_log
deriving DecidableEq, Repr

/-- Dataclass `RateLimitConfig` (lines 37-46). -/
structure RateLimitConfig where
  max_requests : ℤ
  time_window : ℤ
  algorithm : RateLimitAlgorithm := .token_bucket
  burst_size : Option ℤ := none
  refill_rate : Option ℚ := none
  distributed : Bool := false
  redis_url : String := "redis://localhost:6379/0"
deriving DecidableEq, Repr

/-- Dataclass `RateLimitResponse` (lines 49-56). -/
structure RateLimitResponse where
  allowed : Bool
  remaining : ℤ
  reset_time : ℤ
  retry_after : Option ℤ := none
  requests_in_window : ℤ := 0
deriving DecidableEq, Repr

/-- Python truthiness of `a or b` for an optional int (`config.burst_size or
config.max_requests`): `None` and `0` are falsy. -/
def pyOrInt (o : Option ℤ) (d : ℤ) : ℤ :=
  match o with
  | some v => if v = 0 then d else v
  | none => d

/-- Per-client mutable maps (`defaultdict`): total lookup function. -/
def StateMap (X : Type) : Type := String → Option X

def mapGet {X : Type} (st : StateMap X) (cid : String) (dflt : X) : X :=
  (st cid).getD dflt

def mapSet {X : Type} (st : StateMap X) (cid : String) (v : X) : StateMap X :=
  fun c => if c = cid then some v else st c

def emptyMap {X : Type} : StateMap X := fun _ => none

/-! ## TokenBucketLimiter (lines 82-169) -/

/-- One entry of `TokenBucketLimiter.buckets`. -/
structure TBBucket where
  tokens : ℚ
  last_refill : ℚ
  burst_size : ℤ
deriving DecidableEq, Repr

namespace TokenBucketLimiter

/-- The defaultdict default (lines 93-97), evaluated at first access. -/
def default_bucket (cfg : RateLimitConfig) (now : ℚ) : TBBucket :=
  { tokens := (cfg.max_requests : ℚ)
    last_refill := now
    burst_size := pyOrInt cfg.burst_size cfg.max_requests }

/-- Constructor lines 99-103: `if config.refill_rate:` (None and 0.0 are
falsy) `... else max_requests / time_window` (may raise ZeroDivisionError). -/
def compute_rate (cfg : RateLimitConfig) : Except PyErr ℚ :=
  match cfg.refill_rate with
  | some r =>
      if r = 0 then pydiv (cfg.max_requests : ℚ) (cfg.time_window : ℚ) else .ok r
  | none => pydiv (cfg.max_requests : ℚ) (cfg.time_window : ℚ)

/-- `_refill` (lines 108-122) on a single client record. -/
def refill (rate : ℚ) (b : TBBucket) (now : ℚ) : TBBucket :=
  let elapsed := now - b.last_refill
  let tokens_to_add := elapsed * rate
  { tokens := min (b.tokens + tokens_to_add) (b.burst_size : ℚ)
    last_refill := now
    burst_size := b.burst_size }

/-- `is_allowed` (lines 124-149) on a single client record. -/
def is_allowed_core (cfg : RateLimitConfig) (rate : ℚ) (b : TBBucket) (now : ℚ) :
    Except PyErr (RateLimitResponse × TBBucket) :=
  let b := refill rate b now
  if b.tokens ≥ 1 then
    let b' : TBBucket := { b with tokens := b.tokens - 1 }
    let reset_time := pyInt ((cfg.time_window : ℚ) + now)
    .ok ({ allowed := true
           remaining := pyInt b'.tokens
           reset_time := reset_time
           retry_after := none
           requests_in_window := cfg.max_requests - pyInt b'.tokens }, b')
  else
    match pydiv 1 rate with
    | .error e => .error e
    | .ok q =>
        let retry_after := pyInt q
        .ok ({ allowed := false
               remaining := 0
               reset_time := pyInt (now + (retry_after : ℚ))
               retry_after := some retry_after
               requests_in_window := cfg.max_requests }, b)

/-- `is_allowed` at the level of the client map. -/
def is_allowed (cfg : RateLimitConfig) (rate : ℚ) (st : StateMap TBBucket)
    (cid : String) (now : ℚ) :
    Except PyErr (RateLimitResponse × StateMap TBBucket) :=
  match is_allowed_core cfg rate (mapGet st cid (default_bucket cfg now)) now with
  | .error e => .error e
  | .ok (r, b') => .ok (r, mapSet st cid b')

/-- `reset` (lines 151-158). -/
def reset (cfg : RateLimitConfig) (st : StateMap TBBucket) (cid : String)
    (now : ℚ) : StateMap TBBucket :=
  mapSet st cid
    { tokens := (cfg.max_requests : ℚ)
      last_refill := now
      burst_size := pyOrInt cfg.burst_size cfg.max_requests }

structure Status where
  tokens : ℚ
  max_tokens : ℤ
  refill_rate : ℚ
deriving DecidableEq, Repr

/-- `get_status` (lines 160-169): calls `_refill`, hence mutates the map. -/
def get_status (cfg : RateLimitConfig) (rate : ℚ) (st : StateMap TBBucket)
    (cid : String) (now : ℚ) : Status × StateMap TBBucket :=
  let b := mapGet st cid (default_bucket cfg now)
  let b' := refill rate b now
  ({ tokens := b'.tokens, max_tokens := b'.burst_size, refill_rate := rate },
   mapSet st cid b')

/-- Run a scripted sequence of `is_allowed` calls for one client, pairing each
response with its clock reading.  `none` as the starting record means the
client is fresh (defaultdict entry not yet created). -/
def run (cfg : RateLimitConfig) (rate : ℚ) :
    Option TBBucket → List ℚ →
    Except PyErr (List (RateLimitResponse × ℚ) × Option TBBucket)
  | b?, [] => .ok ([], b?)
  | b?, now :: rest =>
    match is_allowed_core cfg rate (b?.getD (default_bucket cfg now)) now with
    | .error e => .error e
    | .ok (r, b') =>
      match run cfg rate (some b') rest with
      | .error e => .error e
      | .ok (rs, bf) => .ok ((r, now) :: rs, bf)

end TokenBucketLimiter

/-! ## SlidingWindowLimiter (lines 172-235) -/

namespace SlidingWindowLimiter

/-- The eviction loop (lines 193-194): `while window and window[0] < window_start:
window.popleft()`. -/
def evict (w : List ℚ) (window_start : ℚ) : List ℚ :=
  w.dropWhile (fun t => decide (t < window_start))

/-- `is_allowed` (lines 186-215) on a single client's timestamp deque
(front = head of list, append = right end). -/
def is_allowed_core (cfg : RateLimitConfig) (w : List ℚ) (now : ℚ) :
    Except PyErr (RateLimitResponse × List ℚ) :=
  let window_start := now - (cfg.time_window : ℚ)
  let window := evict w window_start
  let requests_in_window : ℤ := window.length
  let reset_time :=
    if window.isEmpty then pyInt (now + (cfg.time_window : ℚ))
    else pyInt ((cfg.time_window : ℚ) + now)
  if requests_in_window < cfg.max_requests then
    .ok ({ allowed := true
           remaining := cfg.max_requests - requests_in_window - 1
           reset_time := reset_time
           retry_after := none
           requests_in_window := requests_in_window + 1 }, window ++ [now])
  else
    match window with
    | [] => .error .indexError
    | h :: _ =>
        .ok ({ allowed := false
               remaining := 0
               reset_time := reset_time
               retry_after := some (pyInt (h - window_start + 1))
               requests_in_window := requests_in_window }, window)

/-- `is_allowed` at the level of the client map (defaultdict of deques). -/
def is_allowed (cfg : RateLimitConfig) (st : StateMap (List ℚ))
    (cid : String) (now : ℚ) :
    Except PyErr (RateLimitResponse × StateMap (List ℚ)) :=
  match is_allowed_core cfg (mapGet st cid []) now with
  | .error e => .error e
  | .ok (r, w') => .ok (r, mapSet st cid w')

/-- `reset` (lines 217-220): `clear()`. -/
def reset (st : StateMap (List ℚ)) (cid : String) : StateMap (List ℚ) :=
  mapSet st cid []

structure Status where
  requests_in_window : ℕ
  max_requests : ℤ
  window_size : ℤ
deriving DecidableEq, Repr

/-- `get_status` (lines 222-235): pure, does not mutate the deque. -/
def get_status (cfg : RateLimitConfig) (st : StateMap (List ℚ))
    (cid : String) (now : ℚ) : Status × StateMap (List ℚ) :=
  let window_start := now - (cfg.time_window : ℚ)
  let window := mapGet st cid []
  ({ requests_in_window := (window.filter (fun t => decide (window_start ≤ t))).length
     max_requests := cfg.max_requests
     window_size := cfg.time_window }, st)

/-- Run a scripted sequence of `is_allowed` calls for one client. -/
def run (cfg : RateLimitConfig) :
    List ℚ → List ℚ →
    Except PyErr (List (RateLimitResponse × ℚ) × List ℚ)
  | w, [] => .ok ([], w)
  | w, now :: rest =>
    match is_allowed_core cfg w now with
    | .error e => .error e
    | .ok (r, w') =>
      match run cfg w' rest with
      | .error e => .error e
      | .ok (rs, wf) => .ok ((r, now) :: rs, wf)

end SlidingWindowLimiter

/-! ## LeakyBucketLimiter (lines 238-320) -/

/-- One entry of `LeakyBucketLimiter.buckets`. -/
structure LBBucket where
  queue : List ℚ
  last_leak_time : ℚ
  total_leaked : ℤ
deriving DecidableEq, Repr

namespace LeakyBucketLimiter

/-- Constructor line 256: `leak_rate = max_requests / time_window`. -/
def compute_rate (cfg : RateLimitConfig) : Except PyErr ℚ :=
  pydiv (cfg.max_requests : ℚ) (cfg.time_window : ℚ)

/-- The defaultdict default (lines 249-253). -/
def default_bucket (now : ℚ) : LBBucket :=
  { queue := [], last_leak_time := now, total_leaked := 0 }

/-- `_leak` (lines 260-275): `requests_to_leak = int(elapsed * leak_rate)`
iterations, each popping one item while the queue is non-empty (a negative
count gives an empty `range`, hence no pops). -/
def leak (rate : ℚ) (b : LBBucket) (now : ℚ) : LBBucket :=
  let elapsed := now - b.last_leak_time
  let requests_to_leak := pyInt (elapsed * rate)
  let k := requests_to_leak.toNat
  { queue := b.queue.drop k
    last_leak_time := now
    total_leaked := b.total_leaked + min (k : ℤ) (b.queue.length : ℤ) }

/-- `is_allowed` (lines 277-300) on a single client record. -/
def is_allowed_core (cfg : RateLimitConfig) (rate : ℚ) (b : LBBucket) (now : ℚ) :
    Except PyErr (RateLimitResponse × LBBucket) :=
  let b := leak rate b now
  let queue_size : ℤ := b.queue.length
  if queue_size < cfg.max_requests then
    let b' : LBBucket := { b with queue := b.queue ++ [now] }
    .ok ({ allowed := true
           remaining := cfg.max_requests - queue_size - 1
           reset_time := pyInt ((cfg.time_window : ℚ) + now)
           retry_after := none
           requests_in_window := queue_size + 1 }, b')
  else
    match pydiv 1 rate with
    | .error e => .error e
    | .ok q =>
        let retry_after := pyInt q
        .ok ({ allowed := false
               remaining := 0
               reset_time := pyInt (now + (retry_after : ℚ))
               retry_after := some retry_after
               requests_in_window := queue_size }, b)

/-- `is_allowed` at the level of the client map. -/
def is_allowed (cfg : RateLimitConfig) (rate : ℚ) (st : StateMap LBBucket)
    (cid : String) (now : ℚ) :
    Except PyErr (RateLimitResponse × StateMap LBBucket) :=
  match is_allowed_core cfg rate (mapGet st cid (default_bucket now)) now with
  | .error e => .error e
  | .ok (r, b') => .ok (r, mapSet st cid b')

/-- `reset` (lines 302-309). -/
def reset (st : StateMap LBBucket) (cid : String) (now : ℚ) : StateMap LBBucket :=
  mapSet st cid { queue := [], last_leak_time := now, total_leaked := 0 }

structure Status where
  queue_size : ℕ
  max_capacity : ℤ
  leak_rate : ℚ
  total_leaked : ℤ
deriving DecidableEq, Repr

/-- `get_status` (lines 311-320): calls `_leak`, hence mutates the map. -/
def get_status (cfg : RateLimitConfig) (rate : ℚ) (st : StateMap LBBucket)
    (cid : String) (now : ℚ) : Status × StateMap LBBucket :=
  let b := mapGet st cid (default_bucket now)
  let b' := leak rate b now
  ({ queue_size := b'.queue.length
     max_capacity := cfg.max_requests
     leak_rate := rate
     total_leaked := b'.total_leaked }, mapSet st cid b')

end LeakyBucketLimiter

/-! ## FixedWindowLimiter (lines 323-393) -/

/-- One entry of `FixedWindowLimiter.windows`. -/
structure FWWindow where
  count : ℤ
  window_start : ℚ
deriving DecidableEq, Repr

namespace FixedWindowLimiter

/-- The defaultdict default (lines 333-336). -/
def default_window (now : ℚ) : FWWindow :=
  { count := 0, window_start := now }

/-- `is_allowed` (lines 340-368) on a single client record; the method body
contains no failing operation, so it is total. -/
def is_allowed_core (cfg : RateLimitConfig) (w : FWWindow) (now : ℚ) :
    RateLimitResponse × FWWindow :=
  let w := if now - w.window_start ≥ (cfg.time_window : ℚ) then
             { count := 0, window_start := now } else w
  let reset_time := pyInt (w.window_start + (cfg.time_window : ℚ))
  if w.count < cfg.max_requests then
    let w' : FWWindow := { w with count := w.count + 1 }
    ({ allowed := true
       remaining := cfg.max_requests - w'.count
       reset_time := reset_time
       retry_after := none
       requests_in_window := w'.count }, w')
  else
    ({ allowed := false
       remaining := 0
       reset_time := reset_time
       retry_after := some (pyInt ((reset_time : ℚ) - now))
       requests_in_window := w.count }, w)

/-- `is_allowed` at the level of the client map. -/
def is_allowed (cfg : RateLimitConfig) (st : StateMap FWWindow)
    (cid : String) (now : ℚ) : RateLimitResponse × StateMap FWWindow :=
  let p := is_allowed_core cfg (mapGet st cid (default_window now)) now
  (p.1, mapSet st cid p.2)

/-- `reset` (lines 370-376). -/
def reset (st : StateMap FWWindow) (cid : String) (now : ℚ) : StateMap FWWindow :=
  mapSet st cid { count := 0, window_start := now }

structure Status where
  count : ℤ
  max_requests : ℤ
  window_reset_in : ℤ
deriving DecidableEq, Repr

/-- `get_status` (lines 378-393): may reset an expired window, hence mutates. -/
def get_status (cfg : RateLimitConfig) (st : StateMap FWWindow)
    (cid : String) (now : ℚ) : Status × StateMap FWWindow :=
  let w := mapGet st cid (default_window now)
  let w' := if now - w.window_start ≥ (cfg.time_window : ℚ) then
              { count := 0, window_start := now } else w
  ({ count := w'.count
     max_requests := cfg.max_requests
     window_reset_in := pyInt (w'.window_start + (cfg.time_window : ℚ) - now) },
   mapSet st cid w')

end FixedWindowLimiter

/-! ## RateLimiterFactory (lines 489-515) -/

/-- A constructed limiter: the algorithm variant together with the rate its
constructor derived.  State maps start empty (`emptyMap`) and are threaded
separately.  The distributed variant's constructor only builds a lazy store
client and registers a script locally, so its construction succeeds. -/
inductive Limiter where
  | tokenBucket (refill_rate : ℚ)
  | slidingWindow
  | leakyBucket (leak_rate : ℚ)
  | fixedWindow
  | distributed
deriving DecidableEq, Repr

namespace RateLimiterFactory

/-- `create` (lines 499-509): the `_limiters` dict registers only the four
local classes; `RateLimitAlgorithm.SLIDING_WINDOW_LOG` is absent, so
`_limiters.get` yields `None` and `ValueError` is raised.  Constructing the
TokenBucket and LeakyBucket classes evaluates their rate (which divides by
`time_window`). -/
def create (cfg : RateLimitConfig) : Except PyErr Limiter :=
  if cfg.distributed then .ok .distributed
  else
    match cfg.algorithm with
    | .token_bucket =>
        match TokenBucketLimiter.compute_rate cfg with
        | .error e => .error e
        | .ok r => .ok (.tokenBucket r)
    | .sliding_window => .ok .slidingWindow
    | .leaky_bucket =>
        match LeakyBucketLimiter.compute_rate cfg with
        | .error e => .error e
        | .ok r => .ok (.leakyBucket r)
    | .fixed_window => .ok .fixedWindow
    | .sliding_window_log => .error .valueError

end RateLimiterFactory

/-! ## Trace bookkeeping -/

/-- Clock readings of the admitted decisions of a trace. -/
def admittedTimes (rs : List (RateLimitResponse × ℚ)) : List ℚ :=
  (rs.filter (fun p => p.1.allowed)).map (fun p => p.2)

/-- Number of elements at or above a bound. -/
def countGe (c : ℚ) (l : List ℚ) : ℕ :=
  (l.filter (fun x => decide (c ≤ x))).length

/-- Number of elements in the closed interval `[a, b]`. -/
def countIn (a b : ℚ) (l : List ℚ) : ℕ :=
  (l.filter (fun x => decide (a ≤ x) && decide (x ≤ b))).length

/-- Whether an operation completed without raising. -/
def exOk {α : Type} : Except PyErr α → Bool
  | .ok _ => true
  | .error _ => false

/-! ## General lemmas about the embedding -/

theorem exOk_ok {α : Type} {x : Except PyErr α} (h : ∃ v, x = .ok v) :
    exOk x = true := by
  obtain ⟨v, rfl⟩ := h
  rfl

theorem pydiv_ne_zero (a b : ℚ) (hb : b ≠ 0) : pydiv a b = .ok (a / b) := by
  simp [pydiv, hb]

theorem dropWhile_head_false {α : Type} (p : α → Bool) :
    ∀ (l : List α) (x : α) (xs : List α), l.dropWhile p = x :: xs → p x = false := by
  intro l
  induction l with
  | nil => intro x xs h; simp [List.dropWhile] at h
  | cons a as ih =>
      intro x xs h
      by_cases hp : p a
      · rw [List.dropWhile_cons_of_pos hp] at h
        exact ih x xs h
      · rw [List.dropWhile_cons_of_neg hp] at h
        cases h
        simpa using hp

/-- On a `≤`-sorted list, dropping the strict prefix below a cutoff is the
same as filtering to the elements at or above the cutoff. -/
theorem dropWhile_lt_eq_filter (c : ℚ) :
    ∀ (l : List ℚ), l.Pairwise (· ≤ ·) →
      l.dropWhile (fun t => decide (t < c)) = l.filter (fun t => decide (c ≤ t)) := by
  intro l
  induction l with
  | nil => intro _; rfl
  | cons a as ih =>
      intro hp
      rcases List.pairwise_cons.mp hp with ⟨hall, htl⟩
      by_cases ha : a < c
      · rw [List.dropWhile_cons_of_pos (by simpa using ha),
          List.filter_cons_of_neg (by simpa using not_le.mpr ha)]
        exact ih htl
      · rw [List.dropWhile_cons_of_neg (by simpa using ha),
          List.filter_cons_of_pos (by simpa using not_lt.mp ha)]
        congr 1
        refine (List.filter_eq_self.mpr ?_).symm
        intro b hb
        exact decide_eq_true (le_trans (not_lt.mp ha) (hall b hb))

theorem countGe_dropWhile_lt (c cutoff : ℚ) (h : cutoff ≤ c) :
    ∀ (l : List ℚ),
      countGe c (l.dropWhile (fun t => decide (t < cutoff))) = countGe c l := by
  intro l
  induction l with
  | nil => rfl
  | cons a as ih =>
      by_cases ha : a < cutoff
      · rw [List.dropWhile_cons_of_pos (by simpa using ha), ih]
        have : ¬ c ≤ a := not_le.mpr (lt_of_lt_of_le ha h)
        simp [countGe, this]
      · rw [List.dropWhile_cons_of_neg (by simpa using ha)]

theorem countGe_append_single (c x : ℚ) (l : List ℚ) :
    countGe c (l ++ [x]) = countGe c l + (if c ≤ x then 1 else 0) := by
  by_cases hx : c ≤ x <;> simp [countGe, List.filter_append, hx]

theorem countIn_append_single (a b x : ℚ) (l : List ℚ) :
    countIn a b (l ++ [x]) = countIn a b l + (if a ≤ x ∧ x ≤ b then 1 else 0) := by
  by_cases h1 : a ≤ x
  · by_cases h2 : x ≤ b
    · simp [countIn, List.filter_append, h1, h2]
    · simp [countIn, List.filter_append, h1, h2]
  · simp [countIn, List.filter_append, h1]

theorem countIn_le_countGe (a b : ℚ) :
    ∀ (l : List ℚ), countIn a b l ≤ countGe a l := by
  intro l
  induction l with
  | nil => exact le_refl 0
  | cons x xs ih =>
      by_cases h1 : a ≤ x
      · by_cases h2 : x ≤ b
        · simpa [countIn, countGe, h1, h2] using ih
        · simp only [countIn, countGe, List.filter_cons] at *
          simp [h1, h2]
          omega
      · simpa [countIn, countGe, h1] using ih

theorem countGe_le_length (c : ℚ) (l : List ℚ) : countGe c l ≤ l.length :=
  List.length_filter_le _ l

/-! ## Constructed rates are non-zero for positive policies -/

theorem tb_rate_ne_zero (cfg : RateLimitConfig) (rate : ℚ)
    (h : TokenBucketLimiter.compute_rate cfg = .ok rate)
    (hcap : cfg.max_requests ≠ 0) : rate ≠ 0 := by
  unfold TokenBucketLimiter.compute_rate at h
  have hdiv : ∀ hq : pydiv (cfg.max_requests : ℚ) (cfg.time_window : ℚ) = .ok rate,
      rate ≠ 0 := by
    intro hq
    unfold pydiv at hq
    by_cases hw : (cfg.time_window : ℚ) = 0
    · simp [hw] at hq
    · simp only [hw, if_false] at hq
      cases hq
      exact div_ne_zero (by exact_mod_cast hcap) hw
  split at h
  · -- explicit refill_rate present
    split at h
    · exact hdiv h
    · rename_i hr
      injection h with h2
      subst h2
      exact hr
  · exact hdiv h

theorem lb_rate_ne_zero (cfg : RateLimitConfig) (rate : ℚ)
    (h : LeakyBucketLimiter.compute_rate cfg = .ok rate)
    (hcap : cfg.max_requests ≠ 0) : rate ≠ 0 := by
  unfold LeakyBucketLimiter.compute_rate pydiv at h
  by_cases hw : (cfg.time_window : ℚ) = 0
  · simp [hw] at h
  · simp only [hw, if_false] at h
    cases h
    exact div_ne_zero (by exact_mod_cast hcap) hw

/-! ## Branch equations for the decide operations -/

theorem tb_core_admitted (cfg : RateLimitConfig) (rate : ℚ)
    (b : TBBucket) (now : ℚ) (h : 1 ≤ (TokenBucketLimiter.refill rate b now).tokens) :
    TokenBucketLimiter.is_allowed_core cfg rate b now =
      .ok ({ allowed := true
             remaining := pyInt ((TokenBucketLimiter.refill rate b now).tokens - 1)
             reset_time := pyInt ((cfg.time_window : ℚ) + now)
             retry_after := none
             requests_in_window :=
               cfg.max_requests - pyInt ((TokenBucketLimiter.refill rate b now).tokens - 1) },
           { TokenBucketLimiter.refill rate b now with
               tokens := (TokenBucketLimiter.refill rate b now).tokens - 1 }) := by
  simp only [TokenBucketLimiter.is_allowed_core]
  rw [if_pos h]

theorem tb_core_rejected (cfg : RateLimitConfig) (rate : ℚ)
    (b : TBBucket) (now : ℚ) (h : ¬ 1 ≤ (TokenBucketLimiter.refill rate b now).tokens)
    (hr : rate ≠ 0) :
    TokenBucketLimiter.is_allowed_core cfg rate b now =
      .ok ({ allowed := false
             remaining := 0
             reset_time := pyInt (now + (pyInt (1 / rate) : ℚ))
             retry_after := some (pyInt (1 / rate))
             requests_in_window := cfg.max_requests },
           TokenBucketLimiter.refill rate b now) := by
  simp only [TokenBucketLimiter.is_allowed_core]
  rw [if_neg h, pydiv_ne_zero 1 rate hr]

theorem sw_core_admitted (cfg : RateLimitConfig)
    (w : List ℚ) (now : ℚ)
    (h : ((SlidingWindowLimiter.evict w (now - (cfg.time_window : ℚ))).length : ℤ) <
      cfg.max_requests) :
    SlidingWindowLimiter.is_allowed_core cfg w now =
      .ok ({ allowed := true
             remaining := cfg.max_requests -
               (SlidingWindowLimiter.evict w (now - (cfg.time_window : ℚ))).length - 1
             reset_time :=
               if (SlidingWindowLimiter.evict w (now - (cfg.time_window : ℚ))).isEmpty
               then pyInt (now + (cfg.time_window : ℚ))
               else pyInt ((cfg.time_window : ℚ) + now)
             retry_after := none
             requests_in_window :=
               (SlidingWindowLimiter.evict w (now - (cfg.time_window : ℚ))).length + 1 },
           SlidingWindowLimiter.evict w (now - (cfg.time_window : ℚ)) ++ [now]) := by
  simp only [SlidingWindowLimiter.is_allowed_core]
  rw [if_pos h]

theorem sw_core_rejected (cfg : RateLimitConfig)
    (w : List ℚ) (now hd : ℚ) (tl : List ℚ)
    (hW : SlidingWindowLimiter.evict w (now - (cfg.time_window : ℚ)) = hd :: tl)
    (h : ¬ (((hd :: tl).length : ℤ) < cfg.max_requests)) :
    SlidingWindowLimiter.is_allowed_core cfg w now =
      .ok ({ allowed := false
             remaining := 0
             reset_time := pyInt ((cfg.time_window : ℚ) + now)
             retry_after := some (pyInt (hd - (now - (cfg.time_window : ℚ)) + 1))
             requests_in_window := (hd :: tl).length },
           hd :: tl) := by
  simp only [SlidingWindowLimiter.is_allowed_core, hW, List.isEmpty_cons]
  rw [if_neg h]
  simp

theorem lb_core_admitted (cfg : RateLimitConfig) (rate : ℚ)
    (b : LBBucket) (now : ℚ)
    (h : (((LeakyBucketLimiter.leak rate b now).queue.length : ℤ)) < cfg.max_requests) :
    LeakyBucketLimiter.is_allowed_core cfg rate b now =
      .ok ({ allowed := true
             remaining := cfg.max_requests -
               (LeakyBucketLimiter.leak rate b now).queue.length - 1
             reset_time := pyInt ((cfg.time_window : ℚ) + now)
             retry_after := none
             requests_in_window := (LeakyBucketLimiter.leak rate b now).queue.length + 1 },
           { LeakyBucketLimiter.leak rate b now with
               queue := (LeakyBucketLimiter.leak rate b now).queue ++ [now] }) := by
  simp only [LeakyBucketLimiter.is_allowed_core]
  rw [if_pos h]

theorem lb_core_rejected (cfg : RateLimitConfig) (rate : ℚ)
    (b : LBBucket) (now : ℚ)
    (h : ¬ ((((LeakyBucketLimiter.leak rate b now).queue.length : ℤ)) < cfg.max_requests))
    (hr : rate ≠ 0) :
    LeakyBucketLimiter.is_allowed_core cfg rate b now =
      .ok ({ allowed := false
             remaining := 0
             reset_time := pyInt (now + (pyInt (1 / rate) : ℚ))
             retry_after := some (pyInt (1 / rate))
             requests_in_window := (LeakyBucketLimiter.leak rate b now).queue.length },
           LeakyBucketLimiter.leak rate b now) := by
  simp only [LeakyBucketLimiter.is_allowed_core]
  rw [if_neg h, pydiv_ne_zero 1 rate hr]

/-! ## Totality of the local decide operations -/

theorem tb_core_total (cfg : RateLimitConfig) (rate : ℚ)
    (b : TBBucket) (now : ℚ) (hr : rate ≠ 0) :
    exOk (TokenBucketLimiter.is_allowed_core cfg rate b now) = true := by
  by_cases h : 1 ≤ (TokenBucketLimiter.refill rate b now).tokens
  · rw [tb_core_admitted cfg rate b now h]; rfl
  · rw [tb_core_rejected cfg rate b now h hr]; rfl

theorem sw_core_total (cfg : RateLimitConfig)
    (w : List ℚ) (now : ℚ) (hcap : 0 < cfg.max_requests) :
    exOk (SlidingWindowLimiter.is_allowed_core cfg w now) = true := by
  by_cases h : ((SlidingWindowLimiter.evict w (now - (cfg.time_window : ℚ))).length : ℤ) <
      cfg.max_requests
  · rw [sw_core_admitted cfg w now h]; rfl
  · obtain ⟨hd, tl, hW⟩ : ∃ hd tl,
        SlidingWindowLimiter.evict w (now - (cfg.time_window : ℚ)) = hd :: tl := by
      rcases hE : SlidingWindowLimiter.evict w (now - (cfg.time_window : ℚ)) with _ | ⟨hd, tl⟩
      · exfalso
        rw [hE] at h
        simp at h
        omega
      · exact ⟨hd, tl, rfl⟩
    rw [sw_core_rejected cfg w now hd tl hW (hW ▸ h)]
    rfl

theorem lb_core_total (cfg : RateLimitConfig) (rate : ℚ)
    (b : LBBucket) (now : ℚ) (hr : rate ≠ 0) :
    exOk (LeakyBucketLimiter.is_allowed_core cfg rate b now) = true := by
  by_cases h : (((LeakyBucketLimiter.leak rate b now).queue.length : ℤ)) < cfg.max_requests
  · rw [lb_core_admitted cfg rate b now h]; rfl
  · rw [lb_core_rejected cfg rate b now h hr]; rfl

theorem tb_rate_ok (cfg : RateLimitConfig)
    (hw : (cfg.time_window : ℚ) ≠ 0) :
    ∃ r, TokenBucketLimiter.compute_rate cfg = .ok r := by
  unfold TokenBucketLimiter.compute_rate
  cases cfg.refill_rate with
  | none => exact ⟨_, pydiv_ne_zero _ _ hw⟩
  | some r =>
      show ∃ x, (if r = 0 then pydiv (cfg.max_requests : ℚ) (cfg.time_window : ℚ)
        else Except.ok r) = Except.ok x
      by_cases hr : r = 0
      · rw [if_pos hr]
        exact ⟨_, pydiv_ne_zero _ _ hw⟩
      · rw [if_neg hr]
        exact ⟨r, rfl⟩

theorem lb_rate_ok (cfg : RateLimitConfig)
    (hw : (cfg.time_window : ℚ) ≠ 0) :
    ∃ r, LeakyBucketLimiter.compute_rate cfg = .ok r :=
  ⟨_, pydiv_ne_zero _ _ hw⟩

theorem RateLimiterFactory.create_ok (cfg : RateLimitConfig)
    (hw : cfg.time_window ≠ 0) (hd : cfg.distributed = false)
    (halg : cfg.algorithm ≠ .sliding_window_log) :
    exOk (RateLimiterFactory.create cfg) = true := by
  have hwq : (cfg.time_window : ℚ) ≠ 0 := Int.cast_ne_zero.mpr hw
  unfold RateLimiterFactory.create
  rw [hd]
  simp only [Bool.false_eq_true, if_false]
  cases halgv : cfg.algorithm with
  | token_bucket =>
      obtain ⟨r, hrr⟩ := tb_rate_ok cfg hwq
      rw [hrr]
      rfl
  | sliding_window => rfl
  | leaky_bucket =>
      obtain ⟨r, hrr⟩ := lb_rate_ok cfg hwq
      rw [hrr]
      rfl
  | fixed_window => rfl
  | sliding_window_log => exact absurd halgv halg

theorem tb_decide_ok (cfg : RateLimitConfig) (rate : ℚ)
    (st : StateMap TBBucket) (cid : String) (now : ℚ) (hr : rate ≠ 0) :
    exOk (TokenBucketLimiter.is_allowed cfg rate st cid now) = true := by
  have htot := tb_core_total cfg rate
    (mapGet st cid (TokenBucketLimiter.default_bucket cfg now)) now hr
  unfold TokenBucketLimiter.is_allowed
  rcases hcore : TokenBucketLimiter.is_allowed_core cfg rate
      (mapGet st cid (TokenBucketLimiter.default_bucket cfg now)) now with e | ⟨r, b'⟩
  · rw [hcore] at htot
    exact absurd htot (by simp [exOk])
  · rfl

theorem sw_decide_ok (cfg : RateLimitConfig)
    (st : StateMap (List ℚ)) (cid : String) (now : ℚ) (hcap : 0 < cfg.max_requests) :
    exOk (SlidingWindowLimiter.is_allowed cfg st cid now) = true := by
  have htot := sw_core_total cfg (mapGet st cid []) now hcap
  unfold SlidingWindowLimiter.is_allowed
  rcases hcore : SlidingWindowLimiter.is_allowed_core cfg (mapGet st cid []) now
    with e | ⟨r, w'⟩
  · rw [hcore] at htot
    exact absurd htot (by simp [exOk])
  · rfl

theorem lb_decide_ok (cfg : RateLimitConfig) (rate : ℚ)
    (st : StateMap LBBucket) (cid : String) (now : ℚ) (hr : rate ≠ 0) :
    exOk (LeakyBucketLimiter.is_allowed cfg rate st cid now) = true := by
  have htot := lb_core_total cfg rate
    (mapGet st cid (LeakyBucketLimiter.default_bucket now)) now hr
  unfold LeakyBucketLimiter.is_allowed
  rcases hcore : LeakyBucketLimiter.is_allowed_core cfg rate
      (mapGet st cid (LeakyBucketLimiter.default_bucket now)) now with e | ⟨r, b'⟩
  · rw [hcore] at htot
    exact absurd htot (by simp [exOk])
  · rfl

/-! ## Claim theorems -/

/-- C2 (confirmed): for every policy with positive capacity and positive window,
the decide operations of the four local limiters terminate normally and never
raise.  The partial operations of the source are the `1 / rate` divisions of
TokenBucket and LeakyBucket (the rates a constructor derives from such a policy
are non-zero) and SlidingWindow's read of `window[0]`, reached only when
`len(window) ≥ max_requests ≥ 1`.  FixedWindow's `decide`, and `reset` and
`get_status` of all four limiters, contain no partial operation and are
embedded as total functions, so the conjunct for FixedWindow records that a
Decision is always produced. -/
theorem C2_local_decide_total (cfg : RateLimitConfig) (rate1 rate2 : ℚ)
    (hcap : 0 < cfg.max_requests) (hwin : 0 < cfg.time_window)
    (hr1 : TokenBucketLimiter.compute_rate cfg = .ok rate1)
    (hr2 : LeakyBucketLimiter.compute_rate cfg = .ok rate2) :
    (∀ (b : TBBucket) (now : ℚ),
       exOk (TokenBucketLimiter.is_allowed_core cfg rate1 b now) = true) ∧
    (∀ (w : List ℚ) (now : ℚ),
       exOk (SlidingWindowLimiter.is_allowed_core cfg w now) = true) ∧
    (∀ (b : LBBucket) (now : ℚ),
       exOk (LeakyBucketLimiter.is_allowed_core cfg rate2 b now) = true) ∧
    (∀ (w : FWWindow) (now : ℚ),
       ∃ r w', FixedWindowLimiter.is_allowed_core cfg w now = (r, w')) := by
  have h1 : rate1 ≠ 0 :=
    tb_rate_ne_zero cfg rate1 hr1 (by omega)
  have h2 : rate2 ≠ 0 :=
    lb_rate_ne_zero cfg rate2 hr2 (by omega)
  refine ⟨fun b now => ?_, fun w now => ?_, fun b now => ?_, fun w now => ⟨_, _, rfl⟩⟩
  · exact tb_core_total cfg rate1 b now h1
  · exact sw_core_total cfg w now hcap
  · exact lb_core_total cfg rate2 b now h2

/-- C4 (corrected): on a TokenBucket rejection the returned Decision has
`admitted = false`, `remaining = 0`, `in_window = capacity`, but
`retry_after = int(1 / refill_rate)` — truncation toward zero, i.e.
`⌊1 / refill_rate⌋` for a positive rate — not `ceil(1 / refill_rate)` as the
claim states, and `reset_at = int(now + retry_after)`. -/
theorem C4_token_bucket_rejection (cfg : RateLimitConfig) (rate : ℚ)
    (b : TBBucket) (now : ℚ) (hr : rate ≠ 0)
    (hlow : (TokenBucketLimiter.refill rate b now).tokens < 1) :
    TokenBucketLimiter.is_allowed_core cfg rate b now =
      .ok ({ allowed := false
             remaining := 0
             reset_time := pyInt (now + (pyInt (1 / rate) : ℚ))
             retry_after := some (pyInt (1 / rate))
             requests_in_window := cfg.max_requests },
           TokenBucketLimiter.refill rate b now) ∧
    (0 < rate → pyInt (1 / rate) = ⌊1 / rate⌋) :=
  ⟨tb_core_rejected cfg rate b now (not_le.mpr hlow) hr,
   fun h => by rw [pyInt, if_pos (le_of_lt (div_pos one_pos h))]⟩

/-- C5 (corrected): construction performs no policy validation at all — for
any capacity and burst (including non-positive capacity and `burst <
capacity`) and any non-zero window, constructing a local limiter through the
factory succeeds; no `ConfigError` class even exists in the source.  The only
construction-time failures are `ZeroDivisionError` when `time_window = 0`
reaches a rate computation, and `ValueError` for an algorithm missing from
the factory's registry. -/
theorem C5_no_construction_validation (cfg : RateLimitConfig)
    (hw : cfg.time_window ≠ 0) (hd : cfg.distributed = false)
    (halg : cfg.algorithm ≠ .sliding_window_log) :
    exOk (RateLimiterFactory.create cfg) = true :=
  RateLimiterFactory.create_ok cfg hw hd halg

/-- C6 (corrected): the factory's registry covers only four of the five
declared algorithm tags.  For a non-distributed policy with a non-zero
window, `create` succeeds exactly when the algorithm is not
SLIDING_WINDOW_LOG; that declared tag raises `ValueError` (not `ConfigError`,
which does not exist in the source). -/
theorem C6_factory_covers_four (cfg : RateLimitConfig)
    (hd : cfg.distributed = false) (hw : cfg.time_window ≠ 0) :
    exOk (RateLimiterFactory.create cfg) = true ↔
      cfg.algorithm ≠ .sliding_window_log := by
  constructor
  · intro hok halg
    unfold RateLimiterFactory.create at hok
    rw [hd, halg] at hok
    simp [exOk] at hok
  · exact RateLimiterFactory.create_ok cfg hw hd

/-- C7 (corrected): `decide` performs no client-identifier validation: no
`ClientIdError` class exists in the source, and the empty string is accepted
exactly like any other identifier — for every client_id (empty included) and
valid policy, each local limiter's `decide` returns a Decision. -/
theorem C7_no_clientid_validation (cfg : RateLimitConfig) (rate1 rate2 : ℚ)
    (hcap : 0 < cfg.max_requests) (hwin : 0 < cfg.time_window)
    (hr1 : TokenBucketLimiter.compute_rate cfg = .ok rate1)
    (hr2 : LeakyBucketLimiter.compute_rate cfg = .ok rate2)
    (st1 : StateMap TBBucket) (st2 : StateMap (List ℚ)) (st3 : StateMap LBBucket)
    (st4 : StateMap FWWindow) (cid : String) (now : ℚ) :
    exOk (TokenBucketLimiter.is_allowed cfg rate1 st1 cid now) = true ∧
    exOk (SlidingWindowLimiter.is_allowed cfg st2 cid now) = true ∧
    exOk (LeakyBucketLimiter.is_allowed cfg rate2 st3 cid now) = true ∧
    (∃ r st', FixedWindowLimiter.is_allowed cfg st4 cid now = (r, st')) := by
  have h1 : rate1 ≠ 0 :=
    tb_rate_ne_zero cfg rate1 hr1 (by omega)
  have h2 : rate2 ≠ 0 :=
    lb_rate_ne_zero cfg rate2 hr2 (by omega)
  exact ⟨tb_decide_ok cfg rate1 st1 cid now h1,
         sw_decide_ok cfg st2 cid now hcap,
         lb_decide_ok cfg rate2 st3 cid now h2,
         ⟨_, _, rfl⟩⟩

theorem SlidingWindowLimiter.is_allowed_core_empty_rejected (cfg : RateLimitConfig)
    (w : List ℚ) (now : ℚ)
    (hW : SlidingWindowLimiter.evict w (now - (cfg.time_window : ℚ)) = [])
    (hc : ¬ ((0:ℤ) < cfg.max_requests)) :
    SlidingWindowLimiter.is_allowed_core cfg w now = .error .indexError := by
  simp only [SlidingWindowLimiter.is_allowed_core, hW]
  rw [if_neg (by simpa using hc)]

theorem countIn_eq_countGe (a b : ℚ) (l : List ℚ) (hmem : ∀ x ∈ l, x ≤ b) :
    countIn a b l = countGe a l := by
  unfold countIn countGe
  congr 1
  apply List.filter_congr
  intro x hx
  have hx2 : decide (x ≤ b) = true := decide_eq_true (hmem x hx)
  simp [hx2]

/-- C3 (corrected): on both branches the SlidingWindow `reset_time` is
`int(now + window)` — the source computes `int(time_window + now) if window
else int(now + time_window)`, which never reads `log[0]` — and on rejection
`retry_after = int(log[0] - (now - window) + 1)`, i.e.
`floor(log[0] + window - now) + 1`, which is at least 1 but differs from the
claim's `ceil(log[0] + window - now)` at integer offsets. -/
theorem C3_sw_reset_and_retry (cfg : RateLimitConfig) (w : List ℚ) (now : ℚ)
    (resp : RateLimitResponse) (w' : List ℚ)
    (h : SlidingWindowLimiter.is_allowed_core cfg w now = .ok (resp, w')) :
    resp.reset_time = pyInt (now + (cfg.time_window : ℚ)) ∧
    (resp.allowed = false →
      ∃ hd tl, SlidingWindowLimiter.evict w (now - (cfg.time_window : ℚ)) = hd :: tl ∧
        resp.retry_after = some (pyInt (hd - (now - (cfg.time_window : ℚ)) + 1)) ∧
        1 ≤ pyInt (hd - (now - (cfg.time_window : ℚ)) + 1)) := by
  by_cases hc : ((SlidingWindowLimiter.evict w (now - (cfg.time_window : ℚ))).length : ℤ) <
      cfg.max_requests
  · rw [sw_core_admitted cfg w now hc] at h
    injection h with h2
    injection h2 with hresp hw'
    subst hresp
    constructor
    · by_cases hE : (SlidingWindowLimiter.evict w (now - (cfg.time_window : ℚ))).isEmpty
      · simp [hE]
      · simp only [hE, if_false, Bool.false_eq_true]
        rw [add_comm ((cfg.time_window : ℚ)) now]
    · intro habs
      simp at habs
  · rcases hE : SlidingWindowLimiter.evict w (now - (cfg.time_window : ℚ))
      with _ | ⟨hd, tl⟩
    · rw [SlidingWindowLimiter.is_allowed_core_empty_rejected cfg w now hE
        (by rw [hE] at hc; simpa using hc)] at h
      cases h
    · rw [hE] at hc
      rw [sw_core_rejected cfg w now hd tl hE hc] at h
      injection h with h2
      injection h2 with hresp hw'
      subst hresp
      refine ⟨?_, fun _ => ⟨hd, tl, rfl, rfl, ?_⟩⟩
      · show pyInt ((cfg.time_window : ℚ) + now) = pyInt (now + (cfg.time_window : ℚ))
        rw [add_comm]
      · have hhd : ¬ (hd < now - (cfg.time_window : ℚ)) := by
          have hdrop := dropWhile_head_false
            (fun t => decide (t < now - (cfg.time_window : ℚ))) w hd tl hE
          simpa using hdrop
        have hx : (1:ℚ) ≤ hd - (now - (cfg.time_window : ℚ)) + 1 := by
          have := not_lt.mp hhd
          linarith
        rw [pyInt, if_pos (by linarith)]
        exact Int.le_floor.mpr (by exact_mod_cast hx)

/-- C8 (corrected): the eviction loop pops strictly below the cutoff — a
timestamp exactly equal to `now - window` is KEPT, not removed as the claim
states — so for a sorted log of past timestamps the kept log is exactly the
timestamps in the closed interval `[now - window, now]`, and the request is
admitted iff their count (closed on both ends, not the claim's half-open
`(now - window, now]`) is strictly below capacity. -/
theorem C8_sw_eviction_boundary (cfg : RateLimitConfig) (w : List ℚ) (now : ℚ)
    (hsorted : w.Pairwise (· ≤ ·)) (hmem : ∀ x ∈ w, x ≤ now)
    (resp : RateLimitResponse) (w' : List ℚ)
    (h : SlidingWindowLimiter.is_allowed_core cfg w now = .ok (resp, w')) :
    SlidingWindowLimiter.evict w (now - (cfg.time_window : ℚ)) =
      w.filter (fun t => decide (now - (cfg.time_window : ℚ) ≤ t)) ∧
    (resp.allowed = true ↔
      ((countIn (now - (cfg.time_window : ℚ)) now w : ℤ) < cfg.max_requests)) := by
  have hfilter : SlidingWindowLimiter.evict w (now - (cfg.time_window : ℚ)) =
      w.filter (fun t => decide (now - (cfg.time_window : ℚ) ≤ t)) :=
    dropWhile_lt_eq_filter (now - (cfg.time_window : ℚ)) w hsorted
  have hcount : countIn (now - (cfg.time_window : ℚ)) now w =
      (SlidingWindowLimiter.evict w (now - (cfg.time_window : ℚ))).length := by
    rw [countIn_eq_countGe (now - (cfg.time_window : ℚ)) now w hmem, hfilter]
    rfl
  refine ⟨hfilter, ?_⟩
  by_cases hc : ((SlidingWindowLimiter.evict w (now - (cfg.time_window : ℚ))).length : ℤ) <
      cfg.max_requests
  · rw [sw_core_admitted cfg w now hc] at h
    injection h with h2
    injection h2 with hresp hw'
    subst hresp
    simpa [hcount] using hc
  · rcases hE : SlidingWindowLimiter.evict w (now - (cfg.time_window : ℚ))
      with _ | ⟨hd, tl⟩
    · rw [SlidingWindowLimiter.is_allowed_core_empty_rejected cfg w now hE
        (by rw [hE] at hc; simpa using hc)] at h
      cases h
    · rw [hE] at hc
      rw [sw_core_rejected cfg w now hd tl hE hc] at h
      injection h with h2
      injection h2 with hresp hw'
      subst hresp
      rw [hE] at hcount
      simp only [hcount]
      constructor
      · intro habs
        simp at habs
      · intro hlt
        exact absurd hlt hc

theorem pyInt_eq_floor (x : ℚ) (hx : 0 ≤ x) : pyInt x = ⌊x⌋ := if_pos hx

theorem pyInt_le_self (x : ℚ) (hx : 0 ≤ x) : (pyInt x : ℚ) ≤ x := by
  rw [pyInt_eq_floor x hx]
  exact Int.floor_le x

theorem sub_one_lt_pyInt (x : ℚ) (hx : 0 ≤ x) : x - 1 < (pyInt x : ℚ) := by
  rw [pyInt_eq_floor x hx]
  exact Int.sub_one_lt_floor x

theorem pyInt_nonneg (x : ℚ) (hx : 0 ≤ x) : 0 ≤ pyInt x := by
  rw [pyInt_eq_floor x hx]
  exact Int.floor_nonneg.mpr hx

/-- C9 (corrected): P3 as stated fails — TokenBucket's `retry_after =
int(1/refill_rate)` ignores the window entirely, so an explicit `refill_rate`
below `1/(window+1)` pushes `reset_at - now` past `window + 1`, and `int()`
truncation can put `reset_at` slightly below `now` for every variant except
SlidingWindow.  What holds: SlidingWindow rejections satisfy P3 in full;
TokenBucket and LeakyBucket under the default rate `capacity / window`, and
FixedWindow from any reachable window record, satisfy the upper bound
`reset_at - now ≤ window + 1` together with the weakened lower bound
`reset_at > now - 1`. -/
theorem C9_reset_honors_window (cfg : RateLimitConfig)
    (hcap : 1 ≤ cfg.max_requests) (hwin : 1 ≤ cfg.time_window) :
    (∀ (w : List ℚ) (now : ℚ) (resp : RateLimitResponse) (w' : List ℚ), 0 ≤ now →
       SlidingWindowLimiter.is_allowed_core cfg w now = .ok (resp, w') →
       resp.allowed = false →
       now ≤ (resp.reset_time : ℚ) ∧
         (resp.reset_time : ℚ) - now ≤ (cfg.time_window : ℚ) + 1) ∧
    (∀ (b : TBBucket) (now : ℚ) (resp : RateLimitResponse) (b' : TBBucket), 0 ≤ now →
       TokenBucketLimiter.is_allowed_core cfg
         ((cfg.max_requests : ℚ) / (cfg.time_window : ℚ)) b now = .ok (resp, b') →
       resp.allowed = false →
       now - 1 < (resp.reset_time : ℚ) ∧
         (resp.reset_time : ℚ) - now ≤ (cfg.time_window : ℚ) + 1) ∧
    (∀ (b : LBBucket) (now : ℚ) (resp : RateLimitResponse) (b' : LBBucket), 0 ≤ now →
       LeakyBucketLimiter.is_allowed_core cfg
         ((cfg.max_requests : ℚ) / (cfg.time_window : ℚ)) b now = .ok (resp, b') →
       resp.allowed = false →
       now - 1 < (resp.reset_time : ℚ) ∧
         (resp.reset_time : ℚ) - now ≤ (cfg.time_window : ℚ) + 1) ∧
    (∀ (w : FWWindow) (now : ℚ) (resp : RateLimitResponse) (w' : FWWindow),
       0 ≤ w.window_start → w.window_start ≤ now →
       FixedWindowLimiter.is_allowed_core cfg w now = (resp, w') →
       resp.allowed = false →
       now - 1 < (resp.reset_time : ℚ) ∧
         (resp.reset_time : ℚ) - now ≤ (cfg.time_window : ℚ) + 1) := by
  have htw : (1:ℚ) ≤ (cfg.time_window : ℚ) := by exact_mod_cast hwin
  have hcapq : (1:ℚ) ≤ (cfg.max_requests : ℚ) := by exact_mod_cast hcap
  have hrate : 0 < (cfg.max_requests : ℚ) / (cfg.time_window : ℚ) :=
    div_pos (by linarith) (by linarith)
  have hrate0 : (cfg.max_requests : ℚ) / (cfg.time_window : ℚ) ≠ 0 := ne_of_gt hrate
  have hinv : 1 / ((cfg.max_requests : ℚ) / (cfg.time_window : ℚ)) =
      (cfg.time_window : ℚ) / (cfg.max_requests : ℚ) := one_div_div _ _
  have hinv_nonneg : 0 ≤ 1 / ((cfg.max_requests : ℚ) / (cfg.time_window : ℚ)) := by
    rw [hinv]
    positivity
  have hretry_nonneg : (0:ℤ) ≤ pyInt (1 / ((cfg.max_requests : ℚ) / (cfg.time_window : ℚ))) :=
    pyInt_nonneg _ hinv_nonneg
  have hretry_le :
      ((pyInt (1 / ((cfg.max_requests : ℚ) / (cfg.time_window : ℚ)))) : ℚ) ≤
        (cfg.time_window : ℚ) := by
    calc ((pyInt (1 / ((cfg.max_requests : ℚ) / (cfg.time_window : ℚ)))) : ℚ)
        ≤ 1 / ((cfg.max_requests : ℚ) / (cfg.time_window : ℚ)) :=
          pyInt_le_self _ hinv_nonneg
      _ = (cfg.time_window : ℚ) / (cfg.max_requests : ℚ) := hinv
      _ ≤ (cfg.time_window : ℚ) := div_le_self (by linarith) hcapq
  refine ⟨?_, ?_, ?_, ?_⟩
  · -- SlidingWindow
    intro w now resp w' hnow h hfalse
    rcases hE : SlidingWindowLimiter.evict w (now - (cfg.time_window : ℚ))
      with _ | ⟨hd, tl⟩
    · by_cases hc : ((SlidingWindowLimiter.evict w
          (now - (cfg.time_window : ℚ))).length : ℤ) < cfg.max_requests
      · rw [sw_core_admitted cfg w now hc] at h
        injection h with h2
        injection h2 with hresp hw'
        subst hresp
        simp at hfalse
      · rw [SlidingWindowLimiter.is_allowed_core_empty_rejected cfg w now hE
          (by rw [hE] at hc; simpa using hc)] at h
        cases h
    · by_cases hc : (((hd :: tl).length : ℕ) : ℤ) < cfg.max_requests
      · rw [sw_core_admitted cfg w now
          (by rw [hE]; exact hc)] at h
        injection h with h2
        injection h2 with hresp hw'
        subst hresp
        simp at hfalse
      · rw [sw_core_rejected cfg w now hd tl hE hc] at h
        injection h with h2
        injection h2 with hresp hw'
        subst hresp
        show now ≤ ((pyInt ((cfg.time_window : ℚ) + now) : ℤ) : ℚ) ∧
          ((pyInt ((cfg.time_window : ℚ) + now) : ℤ) : ℚ) - now ≤ (cfg.time_window : ℚ) + 1
        have h0 : 0 ≤ (cfg.time_window : ℚ) + now := by linarith
        have hle := pyInt_le_self _ h0
        have hgt := sub_one_lt_pyInt _ h0
        constructor <;> linarith
  · -- TokenBucket with the default rate
    intro b now resp b' hnow h hfalse
    by_cases htok : 1 ≤ (TokenBucketLimiter.refill
        ((cfg.max_requests : ℚ) / (cfg.time_window : ℚ)) b now).tokens
    · rw [tb_core_admitted cfg _ b now htok] at h
      injection h with h2
      injection h2 with hresp hb'
      subst hresp
      simp at hfalse
    · rw [tb_core_rejected cfg _ b now htok hrate0] at h
      injection h with h2
      injection h2 with hresp hb'
      subst hresp
      show now - 1 < ((pyInt (now + ((pyInt (1 / ((cfg.max_requests : ℚ) /
          (cfg.time_window : ℚ)))) : ℚ)) : ℤ) : ℚ) ∧ _
      have hrc : (0:ℚ) ≤ ((pyInt (1 / ((cfg.max_requests : ℚ) /
          (cfg.time_window : ℚ)))) : ℚ) := by exact_mod_cast hretry_nonneg
      have h0 : 0 ≤ now + ((pyInt (1 / ((cfg.max_requests : ℚ) /
          (cfg.time_window : ℚ)))) : ℚ) := by linarith
      have hle := pyInt_le_self _ h0
      have hgt := sub_one_lt_pyInt _ h0
      constructor <;> [linarith; linarith]
  · -- LeakyBucket
    intro b now resp b' hnow h hfalse
    by_cases hq : (((LeakyBucketLimiter.leak
        ((cfg.max_requests : ℚ) / (cfg.time_window : ℚ)) b now).queue.length : ℤ)) <
        cfg.max_requests
    · rw [lb_core_admitted cfg _ b now hq] at h
      injection h with h2
      injection h2 with hresp hb'
      subst hresp
      simp at hfalse
    · rw [lb_core_rejected cfg _ b now hq hrate0] at h
      injection h with h2
      injection h2 with hresp hb'
      subst hresp
      show now - 1 < ((pyInt (now + ((pyInt (1 / ((cfg.max_requests : ℚ) /
          (cfg.time_window : ℚ)))) : ℚ)) : ℤ) : ℚ) ∧ _
      have hrc : (0:ℚ) ≤ ((pyInt (1 / ((cfg.max_requests : ℚ) /
          (cfg.time_window : ℚ)))) : ℚ) := by exact_mod_cast hretry_nonneg
      have h0 : 0 ≤ now + ((pyInt (1 / ((cfg.max_requests : ℚ) /
          (cfg.time_window : ℚ)))) : ℚ) := by linarith
      have hle := pyInt_le_self _ h0
      have hgt := sub_one_lt_pyInt _ h0
      constructor <;> [linarith; linarith]
  · -- FixedWindow
    intro w now resp w' hws0 hwsle h hfalse
    simp only [FixedWindowLimiter.is_allowed_core] at h
    split at h
    · -- the window was reset on this call: count 0 < capacity, so admitted
      split at h
      · injection h with hresp hw'
        subst hresp
        simp at hfalse
      · rename_i hcnt
        refine absurd ?_ hcnt
        show (0:ℤ) < cfg.max_requests
        omega
    · rename_i hexp
      split at h
      · injection h with hresp hw'
        subst hresp
        simp at hfalse
      · injection h with hresp hw'
        subst hresp
        show now - 1 < ((pyInt (w.window_start + (cfg.time_window : ℚ)) : ℤ) : ℚ) ∧ _
        have h0 : 0 ≤ w.window_start + (cfg.time_window : ℚ) := by linarith
        have hle := pyInt_le_self _ h0
        have hgt := sub_one_lt_pyInt _ h0
        have hnw : now - w.window_start < (cfg.time_window : ℚ) := not_le.mp hexp
        constructor <;> [linarith; linarith]

/-! ## Inspect is observationally pure with respect to decide -/

theorem mapSet_mapSet {X : Type} (st : StateMap X) (cid : String) (v v' : X) :
    mapSet (mapSet st cid v) cid v' = mapSet st cid v' := by
  funext c
  unfold mapSet
  by_cases h : c = cid <;> simp [h]

theorem mapGet_mapSet {X : Type} (st : StateMap X) (cid : String) (v d : X) :
    mapGet (mapSet st cid v) cid d = v := by
  unfold mapGet mapSet
  simp

theorem TokenBucketLimiter.refill_refill (rate : ℚ) (b : TBBucket) (now : ℚ) :
    TokenBucketLimiter.refill rate (TokenBucketLimiter.refill rate b now) now =
      TokenBucketLimiter.refill rate b now := by
  simp only [TokenBucketLimiter.refill, sub_self, zero_mul, add_zero]
  rw [min_eq_left (min_le_right _ _)]

theorem LeakyBucketLimiter.leak_leak (rate : ℚ) (b : LBBucket) (now : ℚ) :
    LeakyBucketLimiter.leak rate (LeakyBucketLimiter.leak rate b now) now =
      LeakyBucketLimiter.leak rate b now := by
  simp only [LeakyBucketLimiter.leak, sub_self, zero_mul]
  have h0 : pyInt 0 = 0 := by norm_num [pyInt]
  rw [h0]
  simp

theorem TokenBucketLimiter.is_allowed_core_refill (cfg : RateLimitConfig) (rate : ℚ)
    (b : TBBucket) (now : ℚ) :
    TokenBucketLimiter.is_allowed_core cfg rate (TokenBucketLimiter.refill rate b now) now =
      TokenBucketLimiter.is_allowed_core cfg rate b now := by
  unfold TokenBucketLimiter.is_allowed_core
  rw [TokenBucketLimiter.refill_refill]

theorem LeakyBucketLimiter.is_allowed_core_leak (cfg : RateLimitConfig) (rate : ℚ)
    (b : LBBucket) (now : ℚ) :
    LeakyBucketLimiter.is_allowed_core cfg rate (LeakyBucketLimiter.leak rate b now) now =
      LeakyBucketLimiter.is_allowed_core cfg rate b now := by
  unfold LeakyBucketLimiter.is_allowed_core
  rw [LeakyBucketLimiter.leak_leak]

theorem FixedWindowLimiter.is_allowed_core_status (cfg : RateLimitConfig)
    (w : FWWindow) (now : ℚ) :
    FixedWindowLimiter.is_allowed_core cfg
        (if now - w.window_start ≥ (cfg.time_window : ℚ) then
          { count := 0, window_start := now } else w) now =
      FixedWindowLimiter.is_allowed_core cfg w now := by
  by_cases hexp : now - w.window_start ≥ (cfg.time_window : ℚ)
  · rw [if_pos hexp]
    unfold FixedWindowLimiter.is_allowed_core
    rw [if_pos hexp, ite_self]
  · rw [if_neg hexp]

/-- C10 (confirmed): for every local limiter, client_id and fixed clock
reading, running `get_status` first and then `is_allowed` yields exactly the
same result (Decision and final state) as running `is_allowed` alone — even
though `get_status` mutates the per-client record (TokenBucket refills,
LeakyBucket leaks, FixedWindow may reset an expired window): each of those
mutations is idempotent at a fixed clock reading. -/
theorem C10_inspect_then_decide (cfg : RateLimitConfig) (rate1 rate2 : ℚ)
    (st1 : StateMap TBBucket) (st2 : StateMap (List ℚ)) (st3 : StateMap LBBucket)
    (st4 : StateMap FWWindow) (cid : String) (now : ℚ) :
    TokenBucketLimiter.is_allowed cfg rate1
        (TokenBucketLimiter.get_status cfg rate1 st1 cid now).2 cid now =
      TokenBucketLimiter.is_allowed cfg rate1 st1 cid now ∧
    SlidingWindowLimiter.is_allowed cfg
        (SlidingWindowLimiter.get_status cfg st2 cid now).2 cid now =
      SlidingWindowLimiter.is_allowed cfg st2 cid now ∧
    LeakyBucketLimiter.is_allowed cfg rate2
        (LeakyBucketLimiter.get_status cfg rate2 st3 cid now).2 cid now =
      LeakyBucketLimiter.is_allowed cfg rate2 st3 cid now ∧
    FixedWindowLimiter.is_allowed cfg
        (FixedWindowLimiter.get_status cfg st4 cid now).2 cid now =
      FixedWindowLimiter.is_allowed cfg st4 cid now := by
  refine ⟨?_, ?_, ?_, ?_⟩
  · have hst : (TokenBucketLimiter.get_status cfg rate1 st1 cid now).2 =
        mapSet st1 cid (TokenBucketLimiter.refill rate1
          (mapGet st1 cid (TokenBucketLimiter.default_bucket cfg now)) now) := rfl
    rw [hst]
    unfold TokenBucketLimiter.is_allowed
    rw [mapGet_mapSet, TokenBucketLimiter.is_allowed_core_refill]
    rcases hcore : TokenBucketLimiter.is_allowed_core cfg rate1
        (mapGet st1 cid (TokenBucketLimiter.default_bucket cfg now)) now with e | ⟨r, b'⟩
    · rfl
    · simp [mapSet_mapSet]
  · have hst : (SlidingWindowLimiter.get_status cfg st2 cid now).2 = st2 := rfl
    rw [hst]
  · have hst : (LeakyBucketLimiter.get_status cfg rate2 st3 cid now).2 =
        mapSet st3 cid (LeakyBucketLimiter.leak rate2
          (mapGet st3 cid (LeakyBucketLimiter.default_bucket now)) now) := rfl
    rw [hst]
    unfold LeakyBucketLimiter.is_allowed
    rw [mapGet_mapSet, LeakyBucketLimiter.is_allowed_core_leak]
    rcases hcore : LeakyBucketLimiter.is_allowed_core cfg rate2
        (mapGet st3 cid (LeakyBucketLimiter.default_bucket now)) now with e | ⟨r, b'⟩
    · rfl
    · simp [mapSet_mapSet]
  · have hst : (FixedWindowLimiter.get_status cfg st4 cid now).2 =
        mapSet st4 cid (if now - (mapGet st4 cid (FixedWindowLimiter.default_window now)).window_start ≥
            (cfg.time_window : ℚ) then { count := 0, window_start := now }
          else mapGet st4 cid (FixedWindowLimiter.default_window now)) := rfl
    rw [hst]
    unfold FixedWindowLimiter.is_allowed
    rw [mapGet_mapSet, FixedWindowLimiter.is_allowed_core_status]
    simp [mapSet_mapSet]

/-! ## The sliding-window admission bound -/

theorem countGe_evict (c cutoff : ℚ) (h : cutoff ≤ c) (l : List ℚ) :
    countGe c (SlidingWindowLimiter.evict l cutoff) = countGe c l :=
  countGe_dropWhile_lt c cutoff h l

/-- Invariant of a monotone SlidingWindow run: `adm` is the list of clock
readings already admitted before the run, `u` a lower bound for the remaining
scripted readings, `log` the current timestamp log.  Provided every admitted
reading at or above `u - window` is still accounted for in the log
(count-wise) and the interval bound already holds for `adm`, the interval
bound holds for the whole extended admission list. -/
theorem admittedTimes_cons_true (r : RateLimitResponse) (x : ℚ)
    (rs : List (RateLimitResponse × ℚ)) (h : r.allowed = true) :
    admittedTimes ((r, x) :: rs) = x :: admittedTimes rs := by
  simp [admittedTimes, h]

theorem admittedTimes_cons_false (r : RateLimitResponse) (x : ℚ)
    (rs : List (RateLimitResponse × ℚ)) (h : r.allowed = false) :
    admittedTimes ((r, x) :: rs) = admittedTimes rs := by
  simp [admittedTimes, h]

/-- Invariant of a monotone SlidingWindow run: `adm` is the list of clock
readings already admitted before the run, `u` a lower bound for the remaining
scripted readings, `log` the current timestamp log.  Provided every admitted
reading at or above `u - window` is still accounted for in the log
(count-wise) and the interval bound already holds for `adm`, the interval
bound holds for the whole extended admission list. -/
theorem SlidingWindowLimiter.run_admission_invariant (cfg : RateLimitConfig) :
    ∀ (script log adm : List ℚ) (u : ℚ)
      (results : List (RateLimitResponse × ℚ)) (final : List ℚ),
      script.Pairwise (· ≤ ·) →
      (∀ s ∈ script, u ≤ s) →
      (∀ c : ℚ, u - (cfg.time_window : ℚ) ≤ c → countGe c adm ≤ countGe c log) →
      (∀ t : ℚ, (countIn t (t + (cfg.time_window : ℚ)) adm : ℤ) ≤ cfg.max_requests) →
      SlidingWindowLimiter.run cfg log script = .ok (results, final) →
      ∀ t : ℚ, (countIn t (t + (cfg.time_window : ℚ))
        (adm ++ admittedTimes results) : ℤ) ≤ cfg.max_requests := by
  intro script
  induction script with
  | nil =>
      intro log adm u results final _ _ _ hG hrun t
      simp only [SlidingWindowLimiter.run] at hrun
      injection hrun with h1
      injection h1 with hres hfin
      subst hres
      simpa [admittedTimes] using hG t
  | cons now rest ih =>
      intro log adm u results final hsort hu hK hG hrun t
      obtain ⟨hhead, htail⟩ := List.pairwise_cons.mp hsort
      have hunow : u ≤ now := hu now (List.mem_cons_self _ _)
      simp only [SlidingWindowLimiter.run] at hrun
      rcases hcore : SlidingWindowLimiter.is_allowed_core cfg log now with e | ⟨r, log₂⟩
      · simp only [hcore] at hrun
        cases hrun
      · simp only [hcore] at hrun
        rcases hrest : SlidingWindowLimiter.run cfg log₂ rest with e | ⟨rs, fin⟩
        · simp only [hrest] at hrun
          cases hrun
        · simp only [hrest] at hrun
          injection hrun with h1
          injection h1 with hres hfin
          subst hres
          by_cases hc : ((SlidingWindowLimiter.evict log
              (now - (cfg.time_window : ℚ))).length : ℤ) < cfg.max_requests
          · -- admitted branch
            rw [sw_core_admitted cfg log now hc] at hcore
            injection hcore with h2
            injection h2 with hr hlog₂
            subst hlog₂
            have hall : r.allowed = true := by rw [← hr]
            rw [admittedTimes_cons_true r now rs hall,
              show adm ++ now :: admittedTimes rs =
                (adm ++ [now]) ++ admittedTimes rs by simp]
            refine ih (SlidingWindowLimiter.evict log (now - (cfg.time_window : ℚ)) ++ [now])
              (adm ++ [now]) now rs fin htail hhead ?_ ?_ hrest t
            · intro c hcge
              rw [countGe_append_single, countGe_append_single,
                countGe_evict c (now - (cfg.time_window : ℚ)) (by linarith) log]
              have h1 : countGe c adm ≤ countGe c log := hK c (by linarith)
              omega
            · intro t'
              rw [countIn_append_single]
              by_cases hin : t' ≤ now ∧ now ≤ t' + (cfg.time_window : ℚ)
              · rw [if_pos hin]
                have h1 : countIn t' (t' + (cfg.time_window : ℚ)) adm ≤ countGe t' adm :=
                  countIn_le_countGe t' (t' + (cfg.time_window : ℚ)) adm
                have h2 : countGe t' adm ≤ countGe t' log := by
                  refine hK t' ?_
                  have := hin.2
                  linarith
                have h3 : countGe t' log = countGe t' (SlidingWindowLimiter.evict log
                    (now - (cfg.time_window : ℚ))) :=
                  (countGe_evict t' (now - (cfg.time_window : ℚ))
                    (by linarith [hin.2]) log).symm
                have h4 : countGe t' (SlidingWindowLimiter.evict log
                    (now - (cfg.time_window : ℚ))) ≤ (SlidingWindowLimiter.evict log
                    (now - (cfg.time_window : ℚ))).length :=
                  countGe_le_length _ _
                omega
              · rw [if_neg hin]
                simpa using hG t'
          · -- rejected branch
            rcases hE : SlidingWindowLimiter.evict log (now - (cfg.time_window : ℚ))
              with _ | ⟨hd, tl⟩
            · rw [SlidingWindowLimiter.is_allowed_core_empty_rejected cfg log now hE
                (by rw [hE] at hc; simpa using hc)] at hcore
              cases hcore
            · rw [hE] at hc
              rw [sw_core_rejected cfg log now hd tl hE hc]
                at hcore
              injection hcore with h2
              injection h2 with hr hlog₂
              subst hlog₂
              have hall : r.allowed = false := by rw [← hr]
              rw [admittedTimes_cons_false r now rs hall]
              refine ih (hd :: tl) adm now rs fin htail hhead ?_ hG hrest t
              intro c hcge
              have h1 : countGe c adm ≤ countGe c log := hK c (by linarith)
              have h2 : countGe c (hd :: tl) = countGe c log := by
                rw [← hE, countGe_evict c (now - (cfg.time_window : ℚ)) (by linarith) log]
              omega

/-- C1 (corrected): the admission bound holds for the SlidingWindow limiter —
for a fresh client and any monotone scripted clock, the number of admitted
decisions whose readings fall in any closed interval of length `window` is at
most `capacity` — but it is FALSE for TokenBucket (and analogously
LeakyBucket): a bucket that starts full and refills continuously admits up to
`capacity + window·refill_rate` requests inside one closed window, so those
variants must be excepted alongside FixedWindow. -/
theorem C1_sliding_window_admission_bound (cfg : RateLimitConfig) (script : List ℚ)
    (hsorted : script.Pairwise (· ≤ ·))
    (hcap : 0 < cfg.max_requests) (hwin : 0 < cfg.time_window)
    (results : List (RateLimitResponse × ℚ)) (final : List ℚ)
    (hrun : SlidingWindowLimiter.run cfg [] script = .ok (results, final)) :
    ∀ t : ℚ, (countIn t (t + (cfg.time_window : ℚ)) (admittedTimes results) : ℤ) ≤
      cfg.max_requests := by
  intro t
  rcases hscript : script with _ | ⟨s₀, rest⟩
  · subst hscript
    simp only [SlidingWindowLimiter.run] at hrun
    injection hrun with h1
    injection h1 with hres hfin
    subst hres
    have : countIn t (t + (cfg.time_window : ℚ)) (admittedTimes []) = 0 := by
      simp [admittedTimes, countIn]
    rw [this]
    omega
  · subst hscript
    have hhead : ∀ s ∈ s₀ :: rest, s₀ ≤ s := by
      intro s hs
      rcases List.mem_cons.mp hs with rfl | hs'
      · exact le_refl s
      · exact (List.pairwise_cons.mp hsorted).1 s hs'
    have hmain := SlidingWindowLimiter.run_admission_invariant cfg (s₀ :: rest) [] [] s₀
      results final hsorted hhead (fun c _ => le_refl _)
      (fun t' => by
        have : countIn t' (t' + (cfg.time_window : ℚ)) [] = 0 := by simp [countIn]
        rw [this]
        omega) hrun t
    simpa using hmain


/-! ## Concrete witnesses and counterexamples

The reducibility attribute below is scoped to this section; it lets `decide`
evaluate the embedded operations on concrete rational inputs. -/

section ConcreteEvaluation

attribute [local semireducible] Rat.add Rat.sub Rat.mul Rat.inv Rat.ofScientific

/-- C1 counterexample: the claim as stated quantifies over every local
limiter, but the TokenBucket limiter built from the positive policy
`capacity = 2, window = 10` (default rate 2/10) admits 4 requests at the
monotone clock readings 0, 0, 5, 10 — all inside the closed interval
`[0, 10]` of length `window` — exceeding `capacity = 2`. -/
theorem C1_cex_token_bucket_exceeds_capacity :
    TokenBucketLimiter.compute_rate { max_requests := 2, time_window := 10 } = .ok (2/10) ∧
    List.Pairwise (· ≤ ·) [(0:ℚ), 0, 5, 10] ∧
    (TokenBucketLimiter.run { max_requests := 2, time_window := 10 } (2/10) none
        [0, 0, 5, 10]).toOption.map
      (fun p => (countIn 0 10 (admittedTimes p.1) : ℤ)) = some 4 ∧
    ¬ ((4:ℤ) ≤ 2) := by
  decide

/-- C1 witness: a concrete monotone SlidingWindow run under the amended bound. -/
theorem C1_sliding_window_admission_bound_witness :
    List.Pairwise (· ≤ ·) [(0:ℚ), 0, 5] ∧ (0:ℤ) < 2 ∧ (0:ℤ) < 10 ∧
    SlidingWindowLimiter.run { max_requests := 2, time_window := 10 } [] [0, 0, 5] =
      .ok ([({ allowed := true, remaining := 1, reset_time := 10, retry_after := none,
               requests_in_window := 1 }, 0),
            ({ allowed := true, remaining := 0, reset_time := 10, retry_after := none,
               requests_in_window := 2 }, 0),
            ({ allowed := false, remaining := 0, reset_time := 15, retry_after := some 6,
               requests_in_window := 2 }, 5)], [0, 0]) ∧
    (countIn 0 (0 + ((10:ℤ) : ℚ))
      (admittedTimes
        [({ allowed := true, remaining := 1, reset_time := 10, retry_after := none,
            requests_in_window := 1 }, 0),
         ({ allowed := true, remaining := 0, reset_time := 10, retry_after := none,
            requests_in_window := 2 }, 0),
         ({ allowed := false, remaining := 0, reset_time := 15, retry_after := some 6,
            requests_in_window := 2 }, 5)]) : ℤ) ≤ 2 :=
  ⟨by decide, by decide, by decide, by decide,
   C1_sliding_window_admission_bound { max_requests := 2, time_window := 10 } [0, 0, 5]
     (by decide) (by decide) (by decide) _ [0, 0] (by decide) 0⟩

/-- C2 witness: the positive policy `capacity = 5, window = 10` yields rates
5/10 and total decide operations at a concrete state and clock reading. -/
theorem C2_local_decide_total_witness :
    (0:ℤ) < 5 ∧ (0:ℤ) < 10 ∧
    TokenBucketLimiter.compute_rate { max_requests := 5, time_window := 10 } =
      .ok (5/10) ∧
    LeakyBucketLimiter.compute_rate { max_requests := 5, time_window := 10 } =
      .ok (5/10) ∧
    exOk (TokenBucketLimiter.is_allowed_core { max_requests := 5, time_window := 10 }
      (5/10) { tokens := 0, last_refill := 0, burst_size := 5 } 0) = true ∧
    exOk (SlidingWindowLimiter.is_allowed_core { max_requests := 5, time_window := 10 }
      [] 0) = true ∧
    exOk (LeakyBucketLimiter.is_allowed_core { max_requests := 5, time_window := 10 }
      (5/10) { queue := [], last_leak_time := 0, total_leaked := 0 } 0) = true ∧
    (∃ r w', FixedWindowLimiter.is_allowed_core { max_requests := 5, time_window := 10 }
      { count := 0, window_start := 0 } 0 = (r, w')) :=
  ⟨by decide, by decide, by decide, by decide,
   (C2_local_decide_total { max_requests := 5, time_window := 10 } (5/10) (5/10)
     (by decide) (by decide) (by decide) (by decide)).1
     { tokens := 0, last_refill := 0, burst_size := 5 } 0,
   (C2_local_decide_total { max_requests := 5, time_window := 10 } (5/10) (5/10)
     (by decide) (by decide) (by decide) (by decide)).2.1 [] 0,
   (C2_local_decide_total { max_requests := 5, time_window := 10 } (5/10) (5/10)
     (by decide) (by decide) (by decide) (by decide)).2.2.1
     { queue := [], last_leak_time := 0, total_leaked := 0 } 0,
   (C2_local_decide_total { max_requests := 5, time_window := 10 } (5/10) (5/10)
     (by decide) (by decide) (by decide) (by decide)).2.2.2
     { count := 0, window_start := 0 } 0⟩

/-- C3 counterexample: with `capacity = 1, window = 10`, admit at 0 and call
again at 5.  The log is non-empty (`log[0] = 0`), so the claim demands
`reset_at = log[0] + window = 10` and `retry_after = ceil(0 + 10 - 5) = 5`;
the code returns `reset_time = int(10 + 5) = 15` and
`retry_after = int(0 - (-5) + 1) = 6`. -/
theorem C3_cex_reset_ignores_log_head :
    SlidingWindowLimiter.run { max_requests := 1, time_window := 10 } [] [0, 5] =
      .ok ([({ allowed := true, remaining := 0, reset_time := 10, retry_after := none,
               requests_in_window := 1 }, 0),
            ({ allowed := false, remaining := 0, reset_time := 15, retry_after := some 6,
               requests_in_window := 1 }, 5)], [0]) ∧
    (15:ℤ) ≠ 0 + 10 ∧
    (6:ℤ) ≠ max ⌈(0:ℚ) + 10 - 5⌉ 1 := by
  decide

/-- C3 witness: the amended reset/retry equations at the rejection above. -/
theorem C3_sw_reset_and_retry_witness :
    SlidingWindowLimiter.is_allowed_core { max_requests := 1, time_window := 10 } [0] 5 =
      .ok ({ allowed := false, remaining := 0, reset_time := 15, retry_after := some 6,
             requests_in_window := 1 }, [0]) ∧
    (15:ℤ) = pyInt ((5:ℚ) + ((10:ℤ) : ℚ)) ∧
    (∃ hd tl, SlidingWindowLimiter.evict [0] ((5:ℚ) - ((10:ℤ) : ℚ)) = hd :: tl ∧
      (some (6:ℤ) : Option ℤ) = some (pyInt (hd - ((5:ℚ) - ((10:ℤ) : ℚ)) + 1)) ∧
      1 ≤ pyInt (hd - ((5:ℚ) - ((10:ℤ) : ℚ)) + 1)) :=
  ⟨by decide,
   (C3_sw_reset_and_retry { max_requests := 1, time_window := 10 } [0] 5
     { allowed := false, remaining := 0, reset_time := 15, retry_after := some 6,
       requests_in_window := 1 } [0] (by decide)).1,
   (C3_sw_reset_and_retry { max_requests := 1, time_window := 10 } [0] 5
     { allowed := false, remaining := 0, reset_time := 15, retry_after := some 6,
       requests_in_window := 1 } [0] (by decide)).2 rfl⟩

/-- C4 counterexample: with `capacity = 3, window = 10` the default rate is
3/10; draining the fresh bucket and asking a fourth time at t = 0 returns
`retry_after = int(10/3) = 3`, not the claimed `ceil(10/3) = 4`. -/
theorem C4_cex_retry_truncates_not_ceil :
    TokenBucketLimiter.compute_rate { max_requests := 3, time_window := 10 } =
      .ok (3/10) ∧
    (TokenBucketLimiter.run { max_requests := 3, time_window := 10 } (3/10) none
        [0, 0, 0, 0]).toOption.map
      (fun p => p.1.map (fun q => q.1.retry_after)) =
      some [none, none, none, some 3] ∧
    (3:ℤ) ≠ ⌈1 / ((3:ℚ)/10)⌉ := by
  decide

/-- C4 witness: the amended rejection equation at the same concrete input. -/
theorem C4_token_bucket_rejection_witness :
    ((3:ℚ)/10 ≠ 0) ∧
    (TokenBucketLimiter.refill ((3:ℚ)/10) (⟨0, 0, 3⟩ : TBBucket) 0).tokens < 1 ∧
    (TokenBucketLimiter.is_allowed_core { max_requests := 3, time_window := 10 }
        ((3:ℚ)/10) (⟨0, 0, 3⟩ : TBBucket) 0 =
      .ok ({ allowed := false
             remaining := 0
             reset_time := pyInt ((0:ℚ) + ((pyInt (1 / ((3:ℚ)/10))) : ℚ))
             retry_after := some (pyInt (1 / ((3:ℚ)/10)))
             requests_in_window := 3 },
           TokenBucketLimiter.refill ((3:ℚ)/10) (⟨0, 0, 3⟩ : TBBucket) 0)) ∧
    (0 < (3:ℚ)/10 → pyInt (1 / ((3:ℚ)/10)) = ⌊1 / ((3:ℚ)/10)⌋) :=
  ⟨by decide, by decide,
   (C4_token_bucket_rejection { max_requests := 3, time_window := 10 } ((3:ℚ)/10)
     (⟨0, 0, 3⟩ : TBBucket) 0 (by decide) (by decide)).1,
   (C4_token_bucket_rejection { max_requests := 3, time_window := 10 } ((3:ℚ)/10)
     (⟨0, 0, 3⟩ : TBBucket) 0 (by decide) (by decide)).2⟩

/-- C5 counterexample: a policy with non-positive capacity (-5) and
`burst < capacity`-violating burst configuration constructs successfully —
no ConfigError (no error at all) is raised at construction. -/
theorem C5_cex_invalid_policy_constructs :
    RateLimiterFactory.create
        { max_requests := -5, time_window := 10, algorithm := .token_bucket,
          burst_size := some 1 } =
      .ok (.tokenBucket (-5/10)) ∧
    (-5:ℤ) ≤ 0 := by
  decide

/-- C5 witness: the amended no-validation theorem at the same invalid policy. -/
theorem C5_no_construction_validation_witness :
    ((10:ℤ) ≠ 0) ∧
    exOk (RateLimiterFactory.create
      { max_requests := -5, time_window := 10, algorithm := .token_bucket,
        burst_size := some 1 }) = true :=
  ⟨by decide,
   C5_no_construction_validation
     { max_requests := -5, time_window := 10, algorithm := .token_bucket,
       burst_size := some 1 } (by decide) rfl (by decide)⟩

/-- C6 counterexample: SLIDING_WINDOW_LOG is one of the five declared tags,
yet the factory raises ValueError for it. -/
theorem C6_cex_sliding_window_log_rejected :
    RateLimiterFactory.create
        { max_requests := 5, time_window := 10, algorithm := .sliding_window_log } =
      .error .valueError := by
  decide

/-- C6 witness: the amended coverage equivalence at a registered algorithm. -/
theorem C6_factory_covers_four_witness :
    ((10:ℤ) ≠ 0) ∧
    (exOk (RateLimiterFactory.create
        { max_requests := 5, time_window := 10, algorithm := .leaky_bucket }) = true ↔
      RateLimitAlgorithm.leaky_bucket ≠ .sliding_window_log) :=
  ⟨by decide,
   C6_factory_covers_four
     { max_requests := 5, time_window := 10, algorithm := .leaky_bucket }
     rfl (by decide)⟩

/-- C7 counterexample: `decide` with the empty client identifier raises
nothing — it returns an ordinary admitted Decision, contradicting the claimed
ClientIdError. -/
theorem C7_cex_empty_client_id_accepted :
    (SlidingWindowLimiter.is_allowed { max_requests := 5, time_window := 10 }
        emptyMap "" 0).toOption.map (fun p => p.1) =
      some { allowed := true, remaining := 4, reset_time := 10, retry_after := none,
             requests_in_window := 1 } := by
  decide

/-- C7 witness: the amended theorem applied at the empty client identifier. -/
theorem C7_no_clientid_validation_witness :
    (0:ℤ) < 5 ∧ (0:ℤ) < 10 ∧
    TokenBucketLimiter.compute_rate { max_requests := 5, time_window := 10 } =
      .ok (5/10) ∧
    LeakyBucketLimiter.compute_rate { max_requests := 5, time_window := 10 } =
      .ok (5/10) ∧
    exOk (TokenBucketLimiter.is_allowed { max_requests := 5, time_window := 10 }
      (5/10) emptyMap "" 0) = true ∧
    exOk (SlidingWindowLimiter.is_allowed { max_requests := 5, time_window := 10 }
      emptyMap "" 0) = true ∧
    exOk (LeakyBucketLimiter.is_allowed { max_requests := 5, time_window := 10 }
      (5/10) emptyMap "" 0) = true ∧
    (∃ r st', FixedWindowLimiter.is_allowed { max_requests := 5, time_window := 10 }
      emptyMap "" 0 = (r, st')) :=
  ⟨by decide, by decide, by decide, by decide,
   (C7_no_clientid_validation { max_requests := 5, time_window := 10 } (5/10) (5/10)
     (by decide) (by decide) (by decide) (by decide)
     emptyMap emptyMap emptyMap emptyMap "" 0).1,
   (C7_no_clientid_validation { max_requests := 5, time_window := 10 } (5/10) (5/10)
     (by decide) (by decide) (by decide) (by decide)
     emptyMap emptyMap emptyMap emptyMap "" 0).2.1,
   (C7_no_clientid_validation { max_requests := 5, time_window := 10 } (5/10) (5/10)
     (by decide) (by decide) (by decide) (by decide)
     emptyMap emptyMap emptyMap emptyMap "" 0).2.2.1,
   (C7_no_clientid_validation { max_requests := 5, time_window := 10 } (5/10) (5/10)
     (by decide) (by decide) (by decide) (by decide)
     emptyMap emptyMap emptyMap emptyMap "" 0).2.2.2⟩

/-- C8 counterexample: with `capacity = 1, window = 10`, admit at 0 and call
again at 10.  The cutoff is exactly 0: the claim says the timestamp 0 is
evicted and the count in the half-open interval `(0, 10]` (which is 0 < 1)
admits the request; the code keeps the timestamp and rejects. -/
theorem C8_cex_boundary_timestamp_kept :
    SlidingWindowLimiter.run { max_requests := 1, time_window := 10 } [] [0, 10] =
      .ok ([({ allowed := true, remaining := 0, reset_time := 10, retry_after := none,
               requests_in_window := 1 }, 0),
            ({ allowed := false, remaining := 0, reset_time := 20, retry_after := some 1,
               requests_in_window := 1 }, 10)], [0]) ∧
    SlidingWindowLimiter.evict [0] ((10:ℚ) - 10) = [0] ∧
    (([(0:ℚ)].filter (fun x => decide ((0:ℚ) < x) && decide (x ≤ 10))).length = 0 ∧
      0 < 1) := by
  decide

/-- C8 witness: the amended eviction/admission equivalence at that input. -/
theorem C8_sw_eviction_boundary_witness :
    List.Pairwise (· ≤ ·) [(0:ℚ)] ∧ (∀ x ∈ [(0:ℚ)], x ≤ 10) ∧
    SlidingWindowLimiter.is_allowed_core { max_requests := 1, time_window := 10 }
        [0] 10 =
      .ok ({ allowed := false, remaining := 0, reset_time := 20, retry_after := some 1,
             requests_in_window := 1 }, [0]) ∧
    (SlidingWindowLimiter.evict [0] ((10:ℚ) - ((10:ℤ) : ℚ)) =
      [(0:ℚ)].filter (fun t => decide ((10:ℚ) - ((10:ℤ) : ℚ) ≤ t)) ∧
     (({ allowed := false, remaining := 0, reset_time := 20, retry_after := some 1,
         requests_in_window := 1 } : RateLimitResponse).allowed = true ↔
       ((countIn ((10:ℚ) - ((10:ℤ) : ℚ)) 10 [0] : ℤ) < 1))) :=
  ⟨by decide, by decide, by decide,
   C8_sw_eviction_boundary { max_requests := 1, time_window := 10 } [0] 10
     (by decide) (by decide)
     { allowed := false, remaining := 0, reset_time := 20, retry_after := some 1,
       requests_in_window := 1 } [0] (by decide)⟩

/-- C9 counterexample: TokenBucket with the explicit refill rate 1/100 under
policy `capacity = 10, window = 60`: drain the bucket, then the eleventh
request at t = 0 is rejected with `reset_time = 100`, violating
`reset_at - now ≤ window + 1 = 61`. -/
theorem C9_cex_explicit_refill_rate_breaks_bound :
    TokenBucketLimiter.compute_rate
        { max_requests := 10, time_window := 60, refill_rate := some (1/100) } =
      .ok (1/100) ∧
    (TokenBucketLimiter.run
        { max_requests := 10, time_window := 60, refill_rate := some (1/100) } (1/100) none
        [0, 0, 0, 0, 0, 0, 0, 0, 0, 0, 0]).toOption.map
      (fun p => p.1.map (fun q => (q.1.allowed, q.1.reset_time))) =
      some [(true, 60), (true, 60), (true, 60), (true, 60), (true, 60), (true, 60),
            (true, 60), (true, 60), (true, 60), (true, 60), (false, 100)] ∧
    ¬ (((100:ℤ) : ℚ) - 0 ≤ ((60:ℤ) : ℚ) + 1) := by
  decide

/-- C9 witness: the amended P3 bounds at a concrete SlidingWindow rejection. -/
theorem C9_reset_honors_window_witness :
    (1:ℤ) ≤ 2 ∧ (1:ℤ) ≤ 10 ∧ (0:ℚ) ≤ 5 ∧
    SlidingWindowLimiter.is_allowed_core { max_requests := 2, time_window := 10 }
        [0, 0] 5 =
      .ok ({ allowed := false, remaining := 0, reset_time := 15, retry_after := some 6,
             requests_in_window := 2 }, [0, 0]) ∧
    ((5:ℚ) ≤ ((15:ℤ) : ℚ) ∧ ((15:ℤ) : ℚ) - 5 ≤ ((10:ℤ) : ℚ) + 1) :=
  ⟨by decide, by decide, by decide, by decide,
   (C9_reset_honors_window { max_requests := 2, time_window := 10 }
     (by decide) (by decide)).1 [0, 0] 5
     { allowed := false, remaining := 0, reset_time := 15, retry_after := some 6,
       requests_in_window := 2 } [0, 0] (by decide) (by decide) rfl⟩

end ConcreteEvaluation
